import Mathlib

/-!
Shallow embedding of `unix-semaphore` (`src/lib.rs`), a thin wrapper around the
POSIX anonymous-semaphore primitive (`sem_init`, `sem_wait`, `sem_trywait`,
`sem_timedwait`, `sem_post`, `sem_getvalue`, `sem_destroy`).

The underlying kernel object is modelled by its observable state: the counter,
a natural number bounded by `SEM_VALUE_MAX`.  The primitive calls are modelled
with Linux semantics (errno values, `SEM_VALUE_MAX = 2^31 - 1`).  Signal
interruption (`EINTR`) and the outcomes of blocking calls are nondeterministic
in reality; they are made explicit here as oracle parameters: either a count of
interrupted calls preceding the call that settles, or a trace of per-call
primitive outcomes.  Process-terminating paths (`unreachable!`, failed
`assert!`, `unwrap()` panics) are modelled as `none` / dedicated outcome
constructors, never as normal returns.
-/

/-- errno `EINTR` (Linux value 4): the call was interrupted by a signal;
`std::io::Error::kind()` maps it to `ErrorKind::Interrupted`. -/
def EINTR : Nat := 4

/-- errno `EAGAIN` (Linux value 11): the operation would block;
`std::io::Error::kind()` maps it to `ErrorKind::WouldBlock`. -/
def EAGAIN : Nat := 11

/-- errno `EINVAL` (Linux value 22): invalid argument (initial count above
`SEM_VALUE_MAX`). -/
def EINVAL : Nat := 22

/-- errno `EOVERFLOW` (Linux value 75): the semaphore count would overflow. -/
def EOVERFLOW : Nat := 75

/-- errno `ETIMEDOUT` (Linux value 110): the absolute deadline passed;
`std::io::Error::kind()` maps it to `ErrorKind::TimedOut`. -/
def ETIMEDOUT : Nat := 110

/-- The maximum representable semaphore count, `SEM_VALUE_MAX` (Linux:
`INT_MAX = 2^31 - 1`). -/
def SEM_VALUE_MAX : Nat := 2 ^ 31 - 1

/-- `pub struct NoToken;` — the typed "no token available" condition. -/
structure NoToken where
deriving DecidableEq, Repr, Inhabited

/-- `pub struct Overflow;` — the typed counter-overflow condition. -/
structure Overflow where
deriving DecidableEq, Repr, Inhabited

/-- `enum Mode { Uninitialized, Anonymous }` — the lifecycle tag of a handle
(`Uninit` embeds the source's `Uninitialized` variant). -/
inductive Mode where
  | Uninit
  | Anonymous
deriving DecidableEq, Repr

/-- `pub struct Semaphore` — the owning handle.  The heap-allocated `sem_t`
behind `inner: NonNull<sem_t>` is modelled by its observable state, the
counter `count`; `mode` is the lifecycle tag. -/
structure Semaphore where
  mode : Mode
  count : Nat
deriving DecidableEq, Repr

/-- The `value as _` cast in `anonymous`: a C `int` (`i32`) reinterpreted as the
C `unsigned int` (`u32`) parameter of `sem_init`, i.e. reduction modulo
`2^32`. -/
def c_int_to_c_uint (v : Int) : Nat := (v % 2 ^ 32).toNat

/-- `libc::sem_init(sem, 0, value)` on Linux: fails with `EINVAL` when `value`
exceeds `SEM_VALUE_MAX`, otherwise initializes the counter to `value`.
(Resource-exhaustion failures of other platforms are outside this model.)
Result: the initialized counter, or the errno. -/
def sem_init (value : Nat) : Except Nat Nat :=
  if value ≤ SEM_VALUE_MAX then Except.ok value else Except.error EINVAL

/-- `libc::sem_trywait`, the call that settles (not interrupted by a signal):
decrements a positive counter, fails with `EAGAIN` when the counter is 0. -/
def sem_trywait (count : Nat) : Except Nat Nat :=
  if 0 < count then Except.ok (count - 1) else Except.error EAGAIN

/-- `libc::sem_post`: increments the counter, fails with `EOVERFLOW` (counter
unchanged) when it is already at `SEM_VALUE_MAX`. -/
def sem_post (count : Nat) : Except Nat Nat :=
  if count < SEM_VALUE_MAX then Except.ok (count + 1) else Except.error EOVERFLOW

/-- `libc::sem_getvalue` on a valid initialized semaphore: returns 0 (so the
`assert_eq!` in `value` always passes) and writes the current counter. -/
def sem_getvalue (count : Nat) : Nat := count

/-- `libc::sem_destroy` on a valid initialized semaphore with no blocked
waiters: returns 0 (so the `assert_eq!` in `drop` passes). -/
def sem_destroy (_count : Nat) : Int := 0

/-- `Semaphore::uninitialized()`: a freshly allocated, zeroed handle before
`sem_init` has run; the lifecycle tag is the source's `Uninitialized`. -/
def Semaphore.uninit : Semaphore := { mode := Mode.Uninit, count := 0 }

/-- `Semaphore::anonymous(value: c_int)`: builds the zeroed handle, passes
`value as _` (the `u32` bit-pattern cast) to `sem_init`; on return 0 flips the
tag to `Anonymous` and returns the handle, on -1 returns the OS errno (the
partial handle, still tagged `Uninit`, is dropped internally). -/
def Semaphore.anonymous (value : Int) : Except Nat Semaphore :=
  let me := Semaphore.uninit
  match sem_init (c_int_to_c_uint value) with
  | Except.ok c => Except.ok { me with mode := Mode.Anonymous, count := c }
  | Except.error e => Except.error e

/-- One primitive outcome reported by a blocking `sem_wait` / `sem_timedwait`
call: success (a token was acquired), or failure with an errno. -/
inductive SemEvent where
  | success
  | fail (errno : Nat)
deriving DecidableEq, Repr

/-- Observable outcome of `Semaphore::wait` over an outcome trace. -/
inductive WaitOutcome where
  | returned   -- `wait` returned `()` to the caller
  | aborted    -- the `assert!(e.kind() == ErrorKind::Interrupted)` failed: the process terminates
  | blocked    -- the trace is exhausted: the call is still blocked in the loop
deriving DecidableEq, Repr

/-- `Semaphore::wait(&self)`, control flow over a trace of per-call primitive
outcomes: return on success, retry (next trace element) on `EINTR`, abort the
process on any other errno. -/
def Semaphore.wait : List SemEvent → WaitOutcome
  | [] => WaitOutcome.blocked
  | SemEvent.success :: _ => WaitOutcome.returned
  | SemEvent.fail e :: rest =>
      if e = EINTR then Semaphore.wait rest else WaitOutcome.aborted

/-- `Semaphore::wait(&self)`, state effect in a single-threaded run: the first
`k` calls to `sem_wait` are interrupted by signals (counter unchanged, the
`assert!` passes, loop again); the next call settles — it decrements a positive
counter immediately, and blocks forever (`none`) on counter 0, since no other
thread will post. -/
def Semaphore.wait_seq (k : Nat) (s : Semaphore) : Option Semaphore :=
  match k with
  | Nat.succ k2 => Semaphore.wait_seq k2 s
  | 0 =>
      if 0 < s.count then some { s with count := s.count - 1 } else none

/-- `Semaphore::trywait(&self)`: the first `k` calls to `sem_trywait` return
`EINTR` (`ErrorKind::Interrupted`, counter unchanged, loop again); the next
call settles and is matched as in the source: 0 → `Ok(())`, `EAGAIN`
(`ErrorKind::WouldBlock`) → `Err(NoToken)`, anything else → `unreachable!`
(process aborts, modelled `none`). -/
def Semaphore.trywait (k : Nat) (s : Semaphore) :
    Option (Except NoToken Unit × Semaphore) :=
  match k with
  | Nat.succ k2 => Semaphore.trywait k2 s
  | 0 =>
      match sem_trywait s.count with
      | Except.ok c => some (Except.ok (), { s with count := c })
      | Except.error e =>
          if e = EAGAIN then some (Except.error NoToken.mk, s)
          else none

/-- `Semaphore::post(&self)`: 0 → `Ok(())`, `EOVERFLOW` → `Err(Overflow)`,
anything else → `unreachable!("Semaphore corruption")` (process aborts,
modelled `none`). -/
def Semaphore.post (s : Semaphore) : Option (Except Overflow Unit × Semaphore) :=
  match sem_post s.count with
  | Except.ok c => some (Except.ok (), { s with count := c })
  | Except.error e =>
      if e = EOVERFLOW then some (Except.error Overflow.mk, s)
      else none

/-- `Semaphore::value(&self)`: reads the counter via `sem_getvalue` (whose
return status 0 satisfies the `assert_eq!`). -/
def Semaphore.value (s : Semaphore) : Nat := sem_getvalue s.count

/-- `libc::timespec` as filled in by `timedwait`. -/
structure timespec where
  tv_sec : Int
  tv_nsec : Int
deriving DecidableEq, Repr

/-- The `dur.as_secs() as _` cast: `u64` reinterpreted as `libc::time_t`
(`i64`), i.e. two's-complement wrap into `[-2^63, 2^63)`. -/
def u64_as_i64 (n : Nat) : Int :=
  if n % 2 ^ 64 < 2 ^ 63 then ((n % 2 ^ 64 : Nat) : Int)
  else ((n % 2 ^ 64 : Nat) : Int) - 2 ^ 64

/-- `SystemTime` is modelled as signed nanoseconds since `UNIX_EPOCH`.
`until.duration_since(UNIX_EPOCH)` succeeds exactly when the time is not
before the epoch, returning the `Duration` (nanoseconds, a `Nat`). -/
def duration_since_epoch (t : Int) : Option Nat :=
  if 0 ≤ t then some t.toNat else none

/-- The `libc::timespec` literal built in `timedwait` from the duration:
`tv_sec = dur.as_secs() as _`, `tv_nsec = i64::from(dur.subsec_nanos())`. -/
def timespec_from (nanos : Nat) : timespec :=
  { tv_sec := u64_as_i64 (nanos / 1000000000)
    tv_nsec := Int.ofNat (nanos % 1000000000) }

/-- Observable outcome of the `timedwait` retry loop. -/
inductive TimedOutcome where
  | tokenTaken  -- returned `Ok(())`
  | noToken     -- returned `Err(NoToken)`
  | aborted     -- `unreachable!` hit: the process terminates
  | blocked     -- the trace is exhausted: the call is still blocked in the loop
deriving DecidableEq, Repr

/-- The `loop` of `Semaphore::timedwait`, over a trace of per-call primitive
outcomes.  `ts` is the `timespec` bound once before the loop; the second
component records the `timespec` argument passed to each successive
`sem_timedwait` call.  0 → `Ok(())`; `EINTR` (`Interrupted`) → `continue`;
`ETIMEDOUT` (`TimedOut`) → `Err(NoToken)`; anything else → `unreachable!`. -/
def timedwait_loop (ts : timespec) : List SemEvent → TimedOutcome × List timespec
  | [] => (TimedOutcome.blocked, [])
  | SemEvent.success :: _ => (TimedOutcome.tokenTaken, [ts])
  | SemEvent.fail e :: rest =>
      if e = EINTR then
        let r := timedwait_loop ts rest
        (r.1, ts :: r.2)
      else if e = ETIMEDOUT then (TimedOutcome.noToken, [ts])
      else (TimedOutcome.aborted, [ts])

/-- `Semaphore::timedwait(&self, until: SystemTime)`:
`until.duration_since(UNIX_EPOCH).unwrap()` — a time before the epoch makes
`unwrap` panic (modelled `none`) — then the `timespec` is built once and the
retry loop runs over the outcome trace. -/
def Semaphore.timedwait (deadline : Int) (trace : List SemEvent) :
    Option (TimedOutcome × List timespec) :=
  match duration_since_epoch deadline with
  | none => none
  | some nanos => some (timedwait_loop (timespec_from nanos) trace)

/-- What `Drop for Semaphore` did: whether `sem_destroy` was invoked, and
whether the heap allocation (`Box::from_raw`) was freed. -/
structure DropActions where
  destroyed : Bool
  freed : Bool
deriving DecidableEq, Repr

/-- `Drop for Semaphore`: on tag `Uninitialized` no teardown; on `Anonymous`,
`assert_eq!(0, sem_destroy(..))` — failure aborts the process (`none`).  The
`Box` is freed unconditionally afterwards. -/
def Semaphore.dropSem (s : Semaphore) : Option DropActions :=
  match s.mode with
  | Mode.Uninit => some { destroyed := false, freed := true }
  | Mode.Anonymous =>
      if sem_destroy s.count = 0 then some { destroyed := true, freed := true }
      else none

/-! ## Supporting lemmas -/

lemma c_int_to_c_uint_natCast (n : Nat) (h : n < 2 ^ 32) :
    c_int_to_c_uint (n : Int) = n := by
  unfold c_int_to_c_uint
  omega

lemma anonymous_natCast (n : Nat) (h : n ≤ SEM_VALUE_MAX) :
    Semaphore.anonymous (n : Int) = Except.ok ⟨Mode.Anonymous, n⟩ := by
  have h32 : n < 2 ^ 32 := by
    have : SEM_VALUE_MAX < 2 ^ 32 := by norm_num [SEM_VALUE_MAX]
    omega
  simp [Semaphore.anonymous, c_int_to_c_uint_natCast n h32, sem_init, h, Semaphore.uninit]

lemma timedwait_loop_eintr_prefix (ts : timespec) (k : Nat) (rest : List SemEvent) :
    timedwait_loop ts (List.replicate k (SemEvent.fail EINTR) ++ SemEvent.success :: rest)
      = (TimedOutcome.tokenTaken, List.replicate (k + 1) ts) ∧
    timedwait_loop ts (List.replicate k (SemEvent.fail EINTR) ++ SemEvent.fail ETIMEDOUT :: rest)
      = (TimedOutcome.noToken, List.replicate (k + 1) ts) := by
  induction k with
  | zero => simp [timedwait_loop, EINTR, ETIMEDOUT]
  | succ k ih =>
      simp [List.replicate_succ, timedwait_loop, ih.1, ih.2]

/-! ## Claim theorems -/

/-- C1: for a handle constructed with initial count `n > 0`, `wait()` (which
succeeds regardless of how many signal interruptions `k` precede the decrement)
followed by `value()` yields `n - 1`, and a subsequent `post()` restores
`value()` to `n`. -/
theorem wait_post_symmetry (n k : Nat) (h1 : 0 < n) (h2 : n ≤ SEM_VALUE_MAX) :
    ∃ s s2 s3,
      Semaphore.anonymous (n : Int) = Except.ok s ∧
      Semaphore.wait_seq k s = some s2 ∧ s2.value = n - 1 ∧
      Semaphore.post s2 = some (Except.ok (), s3) ∧ s3.value = n := by
  refine ⟨⟨Mode.Anonymous, n⟩, ⟨Mode.Anonymous, n - 1⟩, ⟨Mode.Anonymous, n⟩,
    anonymous_natCast n h2, ?_, rfl, ?_, rfl⟩
  · induction k with
    | zero => simp [Semaphore.wait_seq, h1]
    | succ k ih => simpa [Semaphore.wait_seq] using ih
  · have hlt : n - 1 < SEM_VALUE_MAX := by omega
    have hc : n - 1 + 1 = n := Nat.succ_pred_eq_of_pos h1
    simp [Semaphore.post, sem_post, hlt, hc]

/-- C1 witness: concrete run at `n = 1` with `k = 2` interruptions. -/
theorem wait_post_symmetry_witness :
    (0 < 1 ∧ 1 ≤ SEM_VALUE_MAX) ∧
    (∃ s s2 s3,
      Semaphore.anonymous ((1 : Nat) : Int) = Except.ok s ∧
      Semaphore.wait_seq 2 s = some s2 ∧ s2.value = 1 - 1 ∧
      Semaphore.post s2 = some (Except.ok (), s3) ∧ s3.value = 1) :=
  ⟨⟨by decide, by decide⟩, wait_post_symmetry 1 2 (by decide) (by decide)⟩

/-- C2: for every non-negative initial count within the primitive's
representable range, `anonymous(n)` succeeds and `value()` on the returned
handle immediately equals `n`. -/
theorem anonymous_in_range_ok (n : Nat) (h : n ≤ SEM_VALUE_MAX) :
    ∃ s, Semaphore.anonymous (n : Int) = Except.ok s ∧ s.value = n :=
  ⟨⟨Mode.Anonymous, n⟩, anonymous_natCast n h, rfl⟩

/-- C2 witness: concrete construction at `n = 5`. -/
theorem anonymous_in_range_ok_witness :
    (5 : Nat) ≤ SEM_VALUE_MAX ∧
    (∃ s, Semaphore.anonymous ((5 : Nat) : Int) = Except.ok s ∧ s.value = 5) :=
  ⟨by decide, anonymous_in_range_ok 5 (by decide)⟩

/-- C3: `trywait()` (after any number `k` of transparently retried signal
interruptions) succeeds, decrementing the count, exactly when the count was
positive before the call; it returns `NoToken` exactly when the count was 0;
and the result is independent of `k` — interruption never surfaces. -/
theorem trywait_spec (k : Nat) (s : Semaphore) :
    (0 < s.count →
      Semaphore.trywait k s = some (Except.ok (), { s with count := s.count - 1 })) ∧
    (s.count = 0 →
      Semaphore.trywait k s = some (Except.error NoToken.mk, s)) ∧
    Semaphore.trywait k s = Semaphore.trywait 0 s := by
  induction k with
  | zero =>
      refine ⟨fun h => ?_, fun h => ?_, rfl⟩
      · simp [Semaphore.trywait, sem_trywait, h]
      · simp [Semaphore.trywait, sem_trywait, h]
  | succ k ih =>
      simpa [Semaphore.trywait] using ih

/-- C3 witness: two interruptions, then a successful decrement of count 1. -/
theorem trywait_spec_witness :
    0 < (1 : Nat) ∧
    Semaphore.trywait 2 ⟨Mode.Anonymous, 1⟩ = some (Except.ok (), ⟨Mode.Anonymous, 0⟩) :=
  ⟨by decide, (trywait_spec 2 ⟨Mode.Anonymous, 1⟩).1 (by decide)⟩

/-- C4: `post()` on a handle whose count is at `SEM_VALUE_MAX` returns the
typed `Overflow` error with the count unchanged; on a handle below the maximum
it returns success and increments the count by one (never aborting). -/
theorem post_overflow_boundary (c : Nat) :
    (c = SEM_VALUE_MAX →
      Semaphore.post ⟨Mode.Anonymous, c⟩
        = some (Except.error Overflow.mk, ⟨Mode.Anonymous, c⟩)) ∧
    (c < SEM_VALUE_MAX →
      Semaphore.post ⟨Mode.Anonymous, c⟩
        = some (Except.ok (), ⟨Mode.Anonymous, c + 1⟩)) := by
  constructor
  · rintro rfl
    simp [Semaphore.post, sem_post]
  · intro h
    simp [Semaphore.post, sem_post, h]

/-- C4 witness: overflow at the maximum, success at count 0. -/
theorem post_overflow_boundary_witness :
    Semaphore.post ⟨Mode.Anonymous, SEM_VALUE_MAX⟩
      = some (Except.error Overflow.mk, ⟨Mode.Anonymous, SEM_VALUE_MAX⟩) ∧
    Semaphore.post ⟨Mode.Anonymous, 0⟩ = some (Except.ok (), ⟨Mode.Anonymous, 1⟩) :=
  ⟨(post_overflow_boundary SEM_VALUE_MAX).1 rfl,
   (post_overflow_boundary 0).2 (by decide)⟩

/-- C5: for a deadline at or after the epoch, `timedwait` returns success when
the primitive reports a token (after any number `k` of interruptions) and
`NoToken` when it reports the deadline passed first; every retried call
receives the very same `timespec` computed once from the absolute deadline. -/
theorem timedwait_deadline_spec (d : Int) (hd : 0 ≤ d) (k : Nat) (rest : List SemEvent) :
    Semaphore.timedwait d (List.replicate k (SemEvent.fail EINTR) ++ SemEvent.success :: rest)
      = some (TimedOutcome.tokenTaken, List.replicate (k + 1) (timespec_from d.toNat)) ∧
    Semaphore.timedwait d (List.replicate k (SemEvent.fail EINTR) ++ SemEvent.fail ETIMEDOUT :: rest)
      = some (TimedOutcome.noToken, List.replicate (k + 1) (timespec_from d.toNat)) := by
  have hdur : duration_since_epoch d = some d.toNat := by
    simp [duration_since_epoch, hd]
  have hloop := timedwait_loop_eintr_prefix (timespec_from d.toNat) k rest
  simp [Semaphore.timedwait, hdur, hloop.1, hloop.2]

/-- C5 witness: deadline 0, one interruption, both outcome shapes. -/
theorem timedwait_deadline_spec_witness :
    (0 ≤ (0 : Int)) ∧
    (Semaphore.timedwait 0 (List.replicate 1 (SemEvent.fail EINTR) ++ SemEvent.success :: [])
        = some (TimedOutcome.tokenTaken, List.replicate 2 (timespec_from (0 : Int).toNat)) ∧
     Semaphore.timedwait 0 (List.replicate 1 (SemEvent.fail EINTR) ++ SemEvent.fail ETIMEDOUT :: [])
        = some (TimedOutcome.noToken, List.replicate 2 (timespec_from (0 : Int).toNat))) :=
  ⟨le_refl 0, timedwait_deadline_spec 0 (le_refl 0) 1 []⟩

/-- C6: `timedwait` panics (the `unwrap()` of `duration_since(UNIX_EPOCH)`)
exactly for a deadline before the epoch; at or after the epoch the panic never
occurs, whatever the primitive reports. -/
theorem timedwait_pre_epoch_panic (d : Int) (trace : List SemEvent) :
    Semaphore.timedwait d trace = none ↔ d < 0 := by
  by_cases h : 0 ≤ d
  · simp only [Semaphore.timedwait, duration_since_epoch, if_pos h]
    constructor
    · intro hcontra
      exact absurd hcontra (by simp)
    · intro hlt
      exact absurd hlt (by omega)
  · simp only [Semaphore.timedwait, duration_since_epoch, if_neg h]
    constructor
    · intro _
      omega
    · intro _
      trivial

/-- C7: the lifecycle-tag invariant.  A fresh handle carries the
`Uninitialized` tag; a handle returned by a successful `anonymous` carries the
`Anonymous` tag; the destructor invokes `sem_destroy` exactly when the tag is
`Anonymous` and frees the backing memory unconditionally; in particular the
partial handle dropped internally when initialization fails (still tagged
`Uninitialized`) gets memory-only cleanup with no teardown action. -/
theorem lifecycle_tag_invariant :
    Semaphore.uninit.mode = Mode.Uninit ∧
    (∀ v s, Semaphore.anonymous v = Except.ok s → s.mode = Mode.Anonymous) ∧
    (∀ s : Semaphore,
      ((Semaphore.dropSem s = some { destroyed := true, freed := true })
          ↔ s.mode = Mode.Anonymous) ∧
      ((Semaphore.dropSem s = some { destroyed := false, freed := true })
          ↔ s.mode = Mode.Uninit)) ∧
    Semaphore.dropSem Semaphore.uninit = some { destroyed := false, freed := true } := by
  refine ⟨rfl, ?_, ?_, rfl⟩
  · intro v s h
    simp only [Semaphore.anonymous] at h
    split at h
    · cases h
      rfl
    · exact Except.noConfusion h
  · intro s
    obtain ⟨m, c⟩ := s
    cases m <;> simp [Semaphore.dropSem, sem_destroy]

/-- C7 witness: the handle built by `anonymous(7)` carries the `Anonymous`
tag. -/
theorem lifecycle_tag_invariant_witness :
    (Semaphore.mk Mode.Anonymous 7).mode = Mode.Anonymous :=
  lifecycle_tag_invariant.2.1 (7 : Int) (Semaphore.mk Mode.Anonymous 7) (by rfl)

/-- C8: `wait()` never reports a failure to the caller: a trace of signal
interruptions followed by a successful decrement makes it return normally
(interruption is retried transparently), while any other reported errno makes
the `assert!` abort the process instead of returning. -/
theorem wait_never_fails (k e : Nat) (rest1 rest2 : List SemEvent) (he : e ≠ EINTR) :
    Semaphore.wait (List.replicate k (SemEvent.fail EINTR) ++ SemEvent.success :: rest1)
      = WaitOutcome.returned ∧
    Semaphore.wait (List.replicate k (SemEvent.fail EINTR) ++ SemEvent.fail e :: rest2)
      = WaitOutcome.aborted := by
  induction k with
  | zero => simp [Semaphore.wait, he]
  | succ k ih => simpa [List.replicate_succ, Semaphore.wait] using ih

/-- C8 witness: two interruptions then success; two interruptions then
errno `EAGAIN` (11), which aborts. -/
theorem wait_never_fails_witness :
    (11 : Nat) ≠ EINTR ∧
    (Semaphore.wait (List.replicate 2 (SemEvent.fail EINTR) ++ SemEvent.success :: [])
        = WaitOutcome.returned ∧
     Semaphore.wait (List.replicate 2 (SemEvent.fail EINTR) ++ SemEvent.fail 11 :: [])
        = WaitOutcome.aborted) :=
  ⟨by decide, wait_never_fails 2 11 [] [] (by decide)⟩

/-- C10: `anonymous` converts its signed argument to the primitive's unsigned
count by bit-pattern cast (reduction modulo `2^32`): a negative `c_int` is not
rejected by the wrapper but becomes the large unsigned value `v + 2^32`, which
exceeds `SEM_VALUE_MAX` and is therefore rejected by `sem_init`'s range check
(`EINVAL`); in general construction succeeds exactly when the cast value passes
that range check. -/
theorem anonymous_negative_cast (v : Int) (h1 : -(2 ^ 31) ≤ v) (h2 : v < 0) :
    c_int_to_c_uint v = (v + 2 ^ 32).toNat ∧
    SEM_VALUE_MAX < c_int_to_c_uint v ∧
    Semaphore.anonymous v = Except.error EINVAL ∧
    (∀ w : Int, (∃ s, Semaphore.anonymous w = Except.ok s)
        ↔ c_int_to_c_uint w ≤ SEM_VALUE_MAX) := by
  have hpow32 : (2 : Int) ^ 32 = 4294967296 := by norm_num
  have hpow31 : (2 : Int) ^ 31 = 2147483648 := by norm_num
  have hcast : c_int_to_c_uint v = (v + 2 ^ 32).toNat := by
    unfold c_int_to_c_uint
    omega
  have hbig : SEM_VALUE_MAX < c_int_to_c_uint v := by
    rw [hcast]
    have : SEM_VALUE_MAX = 2147483647 := by norm_num [SEM_VALUE_MAX]
    omega
  refine ⟨hcast, hbig, ?_, ?_⟩
  · have hnle : ¬ c_int_to_c_uint v ≤ SEM_VALUE_MAX := Nat.not_le.mpr hbig
    simp [Semaphore.anonymous, sem_init, hnle]
  · intro w
    by_cases hw : c_int_to_c_uint w ≤ SEM_VALUE_MAX
    · simp [Semaphore.anonymous, sem_init, hw]
    · simp [Semaphore.anonymous, sem_init, hw]

/-- C10 witness: `anonymous(-1)`; the cast yields `2^32 - 1`, above the range
check, so the primitive rejects it with `EINVAL`. -/
theorem anonymous_negative_cast_witness :
    (-(2 ^ 31) ≤ (-1 : Int) ∧ (-1 : Int) < 0) ∧
    (c_int_to_c_uint (-1) = ((-1 : Int) + 2 ^ 32).toNat ∧
     SEM_VALUE_MAX < c_int_to_c_uint (-1) ∧
     Semaphore.anonymous (-1) = Except.error EINVAL ∧
     (∀ w : Int, (∃ s, Semaphore.anonymous w = Except.ok s)
        ↔ c_int_to_c_uint w ≤ SEM_VALUE_MAX)) :=
  ⟨⟨by norm_num, by norm_num⟩, anonymous_negative_cast (-1) (by norm_num) (by norm_num)⟩
